import Mathlib

/-!
# libyang: structure extension plugin and data printer dispatch

A shallow embedding of `src/plugins_exts/structure.c` (the compile callback of the
RFC 8791 `structure` extension) and of `src/printer_data.c` (format dispatch and the
whole-document / single-subtree entry points of the data printer), followed by the
properties of the two files that the specification states.

Conventions of the embedding:
* a C string is the text before its terminator, a Lean `String`;
* a pointer that may be `NULL` is an `Option`;
* a linked list reached through `next` pointers of schema nodes is a `List`;
* calls that leave the two files (logging, allocation, the substatement engine, the
  serializers) are recorded, in call order, in a trace returned next to the result.
-/

namespace Libyang

/-! ## Shared declarations -/

/-- Result codes of the library (the enumeration `LY_ERR`). -/
inductive LY_ERR
  | LY_SUCCESS | LY_EMEM | LY_ESYS | LY_EINVAL | LY_EEXIST | LY_ENOTFOUND | LY_EINT
  | LY_EVALID | LY_EDENIED | LY_EINCOMPLETE | LY_ERECOMPILE | LY_ENOT | LY_EOTHER
  | LY_EPLUGIN
  deriving DecidableEq

/-- Verbosity levels of the logger (the enumeration `LY_LOG_LEVEL`). -/
inductive LY_LOG_LEVEL
  | LY_LLERR | LY_LLWRN | LY_LLVRB | LY_LLDBG
  deriving DecidableEq

open LY_ERR LY_LOG_LEVEL

/-- Modelled from the spec: `strcmp` of the C library, called by the sources and not
part of them. Section 4.3 has the checks "use string equality on the full identifier text (no
normalization, no case-folding)": the result is `0` exactly for equal texts, and its sign
otherwise follows the order of the texts. -/
def strcmp (s1 s2 : String) : Int :=
  if s1 = s2 then 0
  else if s1.data.map Char.toNat < s2.data.map Char.toNat then -1 else 1

/-! ## `plugins_exts/structure.c` -/

/-- Modelled from the spec: the statement kinds (`enum ly_stmt`), declared outside the
sources. The kinds the plugin names are all present; the others stand for the remaining
statements of the schema language under which an extension instance can be placed. -/
inductive ly_stmt
  | LY_STMT_NONE | LY_STMT_NOTIFICATION | LY_STMT_INPUT | LY_STMT_OUTPUT | LY_STMT_ACTION
  | LY_STMT_RPC | LY_STMT_ANYDATA | LY_STMT_ANYXML | LY_STMT_AUGMENT | LY_STMT_CASE
  | LY_STMT_CHOICE | LY_STMT_CONTAINER | LY_STMT_GROUPING | LY_STMT_LEAF
  | LY_STMT_LEAF_LIST | LY_STMT_LIST | LY_STMT_USES | LY_STMT_DESCRIPTION
  | LY_STMT_EXTENSION_INSTANCE | LY_STMT_FEATURE | LY_STMT_IDENTITY | LY_STMT_IMPORT
  | LY_STMT_INCLUDE | LY_STMT_MODULE | LY_STMT_MUST | LY_STMT_REFERENCE
  | LY_STMT_REVISION | LY_STMT_STATUS | LY_STMT_SUBMODULE | LY_STMT_TYPE
  | LY_STMT_TYPEDEF | LY_STMT_WHEN
  deriving DecidableEq

/-- Modelled from the spec: the cardinalities of a substatement (`enum
ly_stmt_cardinality`), declared outside the sources: optional-0-or-1, mandatory-exactly-1,
some-1..N and any-0..N. The first value is the one zeroed memory holds. -/
inductive ly_stmt_cardinality
  | LY_STMT_CARD_OPT | LY_STMT_CARD_MAND | LY_STMT_CARD_SOME | LY_STMT_CARD_ANY
  deriving DecidableEq

open ly_stmt ly_stmt_cardinality

/-- A compiled schema node, as far as the plugin reads it: `nodetype` and `name`. The
`next` pointer is the tail of the list the node stands in. -/
structure lysc_node where
  nodetype : Nat
  name : String
  deriving DecidableEq

/-- The private compiled data of a structure instance (`struct
lysc_ext_instance_structure`), field for field. Arrays and the child sibling list are
lists, strings that may be `NULL` are options. -/
structure lysc_ext_instance_structure where
  musts : List String
  flags : Nat
  dsc : Option String
  ref : Option String
  typedefs : List String
  groupings : List String
  child : List lysc_node
  deriving DecidableEq

/-- The block `calloc(1, sizeof *struct_ext)` returns: every field zero. -/
def calloc_struct_ext : lysc_ext_instance_structure :=
  { musts := [], flags := 0, dsc := none, ref := none, typedefs := [], groupings := [],
    child := [] }

/-- The address of one member of the private block, the value of an expression such as
`&struct_ext->musts`. -/
inductive storage_slot
  | musts | flags | dsc | ref | typedefs | groupings | child
  deriving DecidableEq

/-- One entry of the substatement binding array (`struct lysc_ext_substmt`). -/
structure lysc_ext_substmt where
  stmt : ly_stmt
  cardinality : ly_stmt_cardinality
  storage : Option storage_slot
  deriving DecidableEq

/-- A compiled extension instance (`struct lysc_ext_instance`), as far as the plugin
uses it. `def_` is the pointer `def` to the extension definition, compared by address.
`substmts` is a sized array: `none` is `NULL`, the length of the list is its count. -/
structure lysc_ext_instance where
  def_ : Nat
  argument : String
  parent_stmt : ly_stmt
  data : Option lysc_ext_instance_structure
  substmts : Option (List lysc_ext_substmt)
  deriving DecidableEq

/-- One element of the sized array `mod_c->exts`: the element `c_ext` itself points to
(`self`, where the test `&mod_c->exts[u] != c_ext` is false), or another instance. -/
inductive ext_slot
  | self
  | other (e : lysc_ext_instance)
  deriving DecidableEq

/-- The compiled module (`struct lysc_module`), as far as the plugin reads it: the sized
array `exts` and the sibling list `data` of top-level data nodes. -/
structure lysc_module where
  exts : List ext_slot
  data : List lysc_node
  deriving DecidableEq

/-- The parsed extension instance (`struct lysp_ext_instance`); the plugin reads its
name, for the diagnostics. -/
structure lysp_ext_instance where
  name : String
  deriving DecidableEq

/-- The compile context (`struct lysc_ctx`) behind its accessors
`lysc_ctx_get_options` and `lysc_ctx_get_path`. `options` is a `uint32_t`. -/
structure lysc_ctx where
  options : Nat
  path : String
  deriving DecidableEq

/-- The memory one call of the compile callback works on: the context `cctx`, the
compiled instance `*c_ext`, and the module `c_ext->parent` is cast to. -/
structure World where
  cctx : lysc_ctx
  c_ext : lysc_ext_instance
  mod_c : lysc_module
  deriving DecidableEq

/-- The diagnostics of the callback, one constructor for each format string, with the
arguments the format is given. -/
inductive ext_msg
  | non_top_level (name : String) (parent_stmt : ly_stmt)
  | instantiated_multiple_times (name : String)
  | collides (name : String) (nodetype : Nat)
  | memory_allocation_failed (func : String)
  deriving DecidableEq

/-- The calls of the callback that leave the file. -/
inductive Event
  | lyplg_ext_log (level : LY_LOG_LEVEL) (err : LY_ERR) (path : String) (msg : ext_msg)
  | calloc (succeeded : Bool)
  | LY_ARRAY_CREATE (succeeded : Bool)
  | lys_compile_extension_instance (p_ext : lysp_ext_instance) (w : World)
  deriving DecidableEq

/-- What the substatement engine leaves behind: its result code, the option bitfield of
the context as it leaves it, and the destination slots (the private block) as filled. -/
structure engine_result where
  ret : LY_ERR
  options : Nat
  data : lysc_ext_instance_structure

/-- What the callback takes from outside the file: the two option flags (constants of
the schema compiler), whether each of its two allocations succeeds, and the substatement
engine `lys_compile_extension_instance`. -/
structure ext_env where
  LYS_COMPILE_NO_CONFIG : Nat
  LYS_COMPILE_NO_DISABLED : Nat
  calloc_ok : Bool
  array_create_ok : Bool
  lys_compile_extension_instance : lysp_ext_instance → World → engine_result

/-- The result of one call of the callback: the returned code, the memory afterwards and
the outside calls made. -/
structure compile_result where
  ret : LY_ERR
  world : World
  trace : List Event

/-- The loop `LY_ARRAY_FOR(mod_c->exts, u)` of `structure_compile`: `true` when the body
returns, at an element other than `c_ext` with the same definition and argument. -/
def exts_loop (c_ext : lysc_ext_instance) : List ext_slot → Bool
  | [] => false
  | ext_slot.self :: rest => exts_loop c_ext rest
  | ext_slot.other e :: rest =>
    if e.def_ = c_ext.def_ ∧ strcmp e.argument c_ext.argument = 0 then true
    else exts_loop c_ext rest

/-- The loop `LY_LIST_FOR(mod_c->data, child)` of `structure_compile`: the node at which
the body returns, the first one whose name compares equal to the argument. -/
def data_loop (c_ext : lysc_ext_instance) : List lysc_node → Option lysc_node
  | [] => none
  | child :: rest =>
    if strcmp child.name c_ext.argument = 0 then some child else data_loop c_ext rest

/-- The element zeroed array memory holds. -/
def zero_substmt : lysc_ext_substmt :=
  { stmt := LY_STMT_NONE, cardinality := LY_STMT_CARD_OPT, storage := none }

/-- Modelled from the spec: the array step `LY_ARRAY_INCREMENT`, defined outside the
sources: the count of the sized array grows by one, the new element being zeroed memory
of the allocation. -/
def LY_ARRAY_INCREMENT (a : List lysc_ext_substmt) : List lysc_ext_substmt :=
  a ++ [zero_substmt]

/-- The three assignments to `c_ext->substmts[i]`, after the increment of the count. -/
def bind_substmt (a : List lysc_ext_substmt) (i : Nat) (stmt : ly_stmt)
    (cardinality : ly_stmt_cardinality) (storage : storage_slot) : List lysc_ext_substmt :=
  (LY_ARRAY_INCREMENT a).set i
    { stmt := stmt, cardinality := cardinality, storage := some storage }

/-- Lines 83 to 152 of `structure_compile`: the fourteen bindings, written in order into
the array just created. -/
def fill_substmts (a : List lysc_ext_substmt) : List lysc_ext_substmt :=
  let a := bind_substmt a 0 LY_STMT_MUST LY_STMT_CARD_ANY storage_slot.musts
  let a := bind_substmt a 1 LY_STMT_STATUS LY_STMT_CARD_OPT storage_slot.flags
  let a := bind_substmt a 2 LY_STMT_DESCRIPTION LY_STMT_CARD_OPT storage_slot.dsc
  let a := bind_substmt a 3 LY_STMT_REFERENCE LY_STMT_CARD_OPT storage_slot.ref
  let a := bind_substmt a 4 LY_STMT_TYPEDEF LY_STMT_CARD_ANY storage_slot.typedefs
  let a := bind_substmt a 5 LY_STMT_GROUPING LY_STMT_CARD_ANY storage_slot.groupings
  let a := bind_substmt a 6 LY_STMT_CONTAINER LY_STMT_CARD_ANY storage_slot.child
  let a := bind_substmt a 7 LY_STMT_LEAF LY_STMT_CARD_ANY storage_slot.child
  let a := bind_substmt a 8 LY_STMT_LEAF_LIST LY_STMT_CARD_ANY storage_slot.child
  let a := bind_substmt a 9 LY_STMT_LIST LY_STMT_CARD_ANY storage_slot.child
  let a := bind_substmt a 10 LY_STMT_CHOICE LY_STMT_CARD_ANY storage_slot.child
  let a := bind_substmt a 11 LY_STMT_ANYDATA LY_STMT_CARD_ANY storage_slot.child
  let a := bind_substmt a 12 LY_STMT_ANYXML LY_STMT_CARD_ANY storage_slot.child
  let a := bind_substmt a 13 LY_STMT_USES LY_STMT_CARD_ANY storage_slot.child
  a

/-- The label `emem` of `structure_compile`: the allocation failure is logged and
`LY_EMEM` returned. -/
def emem (w : World) (trace : List Event) : compile_result :=
  { ret := LY_EMEM, world := w,
    trace := trace ++ [Event.lyplg_ext_log LY_LLERR LY_EMEM w.cctx.path
      (ext_msg.memory_allocation_failed "structure_compile")] }

/-- Line 154 of `structure_compile`: the two flags are or-ed into the `uint32_t` option
bitfield of the context. -/
def set_compile_options (env : ext_env) (w : World) : World :=
  { w with cctx := { w.cctx with options :=
      (w.cctx.options ||| (env.LYS_COMPILE_NO_CONFIG ||| env.LYS_COMPILE_NO_DISABLED))
        % 2 ^ 32 } }

/-- Lines 74 to 165 of `structure_compile`, what follows the three checks: the two
allocations, the bindings, the call of the engine between the change and the restoration
of the options, and the label `emem`. `prev_options` is the local variable of line 45.

Modelled from the spec: the array allocation `LY_ARRAY_CREATE_GOTO`, defined outside the
sources. Section 2 has the binding table "built fresh by each extension's compile
callback": on success `c_ext->substmts` is a new zeroed array of count 0 with room for the
requested 14 entries; on failure the pointer is `NULL` and control goes to `emem`. -/
def allocate_and_compile (env : ext_env) (p_ext : lysp_ext_instance) (prev_options : Nat)
    (w : World) : compile_result :=
  if env.calloc_ok = false then
    emem w [Event.calloc false]
  else
    let w1 : World := { w with c_ext := { w.c_ext with data := some calloc_struct_ext } }
    if env.array_create_ok = false then
      emem { w1 with c_ext := { w1.c_ext with substmts := none } }
        [Event.calloc true, Event.LY_ARRAY_CREATE false]
    else
      let w2 : World :=
        { w1 with c_ext := { w1.c_ext with substmts := some (fill_substmts []) } }
      let w3 : World := set_compile_options env w2
      let r := env.lys_compile_extension_instance p_ext w3
      let w_engine : World :=
        { w3 with cctx := { w3.cctx with options := r.options },
                  c_ext := { w3.c_ext with data := some r.data } }
      let w4 : World :=
        { w_engine with cctx := { w_engine.cctx with options := prev_options } }
      let trace := [Event.calloc true, Event.LY_ARRAY_CREATE true,
        Event.lys_compile_extension_instance p_ext w3]
      if r.ret ≠ LY_SUCCESS then
        { ret := r.ret, world := w4, trace := trace }
      else
        { ret := LY_SUCCESS, world := w4, trace := trace }

/-- The compile callback `structure_compile(cctx, p_ext, c_ext)`: the placement check,
the two loops of the identifier checks, then `allocate_and_compile`. -/
def structure_compile (env : ext_env) (p_ext : lysp_ext_instance) (w : World) :
    compile_result :=
  let prev_options := w.cctx.options
  if w.c_ext.parent_stmt ≠ LY_STMT_MODULE ∧ w.c_ext.parent_stmt ≠ LY_STMT_SUBMODULE then
    { ret := LY_EVALID, world := w,
      trace := [Event.lyplg_ext_log LY_LLERR LY_EVALID w.cctx.path
        (ext_msg.non_top_level p_ext.name w.c_ext.parent_stmt)] }
  else if exts_loop w.c_ext w.mod_c.exts then
    { ret := LY_EVALID, world := w,
      trace := [Event.lyplg_ext_log LY_LLERR LY_EVALID w.cctx.path
        (ext_msg.instantiated_multiple_times p_ext.name)] }
  else
    match data_loop w.c_ext w.mod_c.data with
    | some child =>
      { ret := LY_EVALID, world := w,
        trace := [Event.lyplg_ext_log LY_LLERR LY_EVALID w.cctx.path
          (ext_msg.collides p_ext.name child.nodetype)] }
    | none => allocate_and_compile env p_ext prev_options w

/-! ## `printer_data.c` -/

/-- Modelled from the spec: the data formats (`LYD_FORMAT`), declared outside the
sources. Section 6 has "a small enumerated set {structural-only (rejected), tree-markup,
compact-binary}"; these are the three labels of the `switch` that are compiled in. -/
inductive LYD_FORMAT
  | LYD_SCHEMA | LYD_XML | LYD_LYB
  deriving DecidableEq

open LYD_FORMAT

/-- A data node (`struct lyd_node`), as far as the printer entry points read it: its
three links. A pointer to a data node is an index into the node memory. -/
structure lyd_node where
  parent : Option Nat
  next : Option Nat
  prev : Option Nat
  deriving DecidableEq

/-- The output sink (`struct ly_out`): the counter `func_printed` the entry points
reset, and the bytes written so far. -/
structure ly_out where
  func_printed : Nat
  written : List Nat
  deriving DecidableEq

/-- The calls of the printer entry points that leave the file. -/
inductive print_event
  | LOGARG (arg : String)
  | LOGERR (err : LY_ERR) (msg : String)
  | xml_print_data (out : ly_out) (root : Option Nat) (options : Nat)
  | lyb_print_data (out : ly_out) (root : Option Nat) (options : Nat)
  | ly_out_free (out : ly_out)
  deriving DecidableEq

/-- What the entry points take from outside the file: the option flag
`LYD_PRINT_WITHSIBLINGS`, the two serializers (each returns its result code and the sink
as it leaves it) and the constructor of an in-memory sink (its result code and the sink
it makes). Option sets are the `int` bit sets of the C code, without a sign bit. -/
structure print_env where
  LYD_PRINT_WITHSIBLINGS : Nat
  xml_print_data : ly_out → Option Nat → Nat → LY_ERR × ly_out
  lyb_print_data : ly_out → Option Nat → Nat → LY_ERR × ly_out
  ly_out_new_memory : LY_ERR × ly_out

/-- The result of a print call: the returned code, the sink afterwards (`none` for a
`NULL` sink) and the outside calls made. -/
structure print_result where
  ret : LY_ERR
  out : Option ly_out
  trace : List print_event
  deriving DecidableEq

/-- The dispatcher `lyd_print_(out, root, format, options)`. -/
def lyd_print_ (env : print_env) (out : ly_out) (root : Option Nat) (format : LYD_FORMAT)
    (options : Nat) : print_result :=
  match format with
  | LYD_XML =>
    let r := env.xml_print_data out root options
    { ret := r.1, out := some r.2, trace := [print_event.xml_print_data out root options] }
  | LYD_LYB =>
    let r := env.lyb_print_data out root options
    { ret := r.1, out := some r.2, trace := [print_event.lyb_print_data out root options] }
  | LYD_SCHEMA =>
    { ret := LY_EINVAL, out := some out,
      trace := [print_event.LOGERR LY_EINVAL "Invalid output format."] }

/-- The check `LY_CHECK_RET(lyd_print_(...))` followed by `return LY_SUCCESS`: a result
other than success is returned as it is. -/
def check_ret (r : print_result) : print_result :=
  if r.ret ≠ LY_SUCCESS then r else { r with ret := LY_SUCCESS }

/-- The loop `while (root->parent) root = root->parent;` of `lyd_print_all`, run for at
most `fuel` tests of its condition. `none`: the fuel ran out or a pointer left the
memory. -/
def parent_loop (mem : List lyd_node) : Nat → Nat → Option Nat
  | 0, _ => none
  | fuel + 1, root =>
    match mem[root]? with
    | none => none
    | some node =>
      match node.parent with
      | some p => parent_loop mem fuel p
      | none => some root

/-- The loop `while (root->prev->next) root = root->prev;` of `lyd_print_all`, run for
at most `fuel` tests of its condition. `none`: the fuel ran out, a pointer left the
memory or `prev` was `NULL`. -/
def prev_loop (mem : List lyd_node) : Nat → Nat → Option Nat
  | 0, _ => none
  | fuel + 1, root =>
    match mem[root]? with
    | none => none
    | some node =>
      match node.prev with
      | none => none
      | some p =>
        match mem[p]? with
        | none => none
        | some pnode =>
          match pnode.next with
          | some _ => prev_loop mem fuel p
          | none => some root

/-- The entry point `lyd_print_all(out, root, format, options)` on the node memory
`mem`, each loop run with the given fuel. `none`: a loop did not finish or `root` was
`NULL`. -/
def lyd_print_all (env : print_env) (mem : List lyd_node) (fuel : Nat) (out : Option ly_out)
    (root : Option Nat) (format : LYD_FORMAT) (options : Nat) : Option print_result :=
  match out with
  | none => some { ret := LY_EINVAL, out := none, trace := [print_event.LOGARG "out"] }
  | some o =>
    if options &&& env.LYD_PRINT_WITHSIBLINGS ≠ 0 then
      some { ret := LY_EINVAL, out := some o,
             trace := [print_event.LOGARG "!(options & LYD_PRINT_WITHSIBLINGS)"] }
    else
      let o1 : ly_out := { o with func_printed := 0 }
      match root with
      | none => none
      | some r =>
        match parent_loop mem fuel r with
        | none => none
        | some top =>
          match prev_loop mem fuel top with
          | none => none
          | some first =>
            some (check_ret (lyd_print_ env o1 (some first) format
              (options ||| env.LYD_PRINT_WITHSIBLINGS)))

/-- The entry point `lyd_print_tree(out, root, format, options)`. -/
def lyd_print_tree (env : print_env) (out : Option ly_out) (root : Option Nat)
    (format : LYD_FORMAT) (options : Nat) : print_result :=
  match out with
  | none => { ret := LY_EINVAL, out := none, trace := [print_event.LOGARG "out"] }
  | some o =>
    if options &&& env.LYD_PRINT_WITHSIBLINGS ≠ 0 then
      { ret := LY_EINVAL, out := some o,
        trace := [print_event.LOGARG "!(options & LYD_PRINT_WITHSIBLINGS)"] }
    else
      let o1 : ly_out := { o with func_printed := 0 }
      check_ret (lyd_print_ env o1 root format options)

/-- The entry point `lyd_print_mem(strp, root, format, options)`; `strp_null` says
whether `strp` is `NULL`. The sink of the result is the one handed to `ly_out_free`. -/
def lyd_print_mem (env : print_env) (strp_null : Bool) (root : Option Nat)
    (format : LYD_FORMAT) (options : Nat) : print_result :=
  if strp_null then
    { ret := LY_EINVAL, out := none, trace := [print_event.LOGARG "strp"] }
  else
    let created := env.ly_out_new_memory
    if created.1 ≠ LY_SUCCESS then
      { ret := created.1, out := none, trace := [] }
    else
      let r := lyd_print_ env created.2 root format options
      { ret := r.ret, out := r.out,
        trace := r.trace ++ [print_event.ly_out_free (r.out.getD created.2)] }

/-! ## The statements of the specification -/

/-- The memory the engine is called in (line 155), for a call that began in `w`: the
zeroed private block and the filled binding array attached to the instance, the two flags
or-ed into the options. -/
def engine_world (env : ext_env) (w : World) : World :=
  set_compile_options env
    { w with c_ext := { w.c_ext with data := some calloc_struct_ext,
                                     substmts := some (fill_substmts []) } }

/-- Section 4.3, placement check: the legal parents of the structure extension are
module and submodule. -/
def legal_placement (c_ext : lysc_ext_instance) : Prop :=
  c_ext.parent_stmt = LY_STMT_MODULE ∨ c_ext.parent_stmt = LY_STMT_SUBMODULE

/-- Section 4.3, duplicate-instance check: another instance in the module's extension
list has the same definition and the same argument string. -/
def duplicate_instance (w : World) : Prop :=
  ∃ e, ext_slot.other e ∈ w.mod_c.exts ∧ e.def_ = w.c_ext.def_ ∧
    e.argument = w.c_ext.argument

/-- Section 4.3, namespace-collision check: a top-level data node of the module has the
argument string as its name. -/
def identifier_collision (w : World) : Prop :=
  ∃ node ∈ w.mod_c.data, node.name = w.c_ext.argument

/-- The failures of section 4.3; a collision names the kind of the existing node. -/
inductive check_failure
  | IllegalPlacement
  | DuplicateExtensionInstance
  | IdentifierCollision (existing_kind : Nat)
  deriving DecidableEq

/-- Whether a slot of the extension list holds another instance with the definition and
argument of `c_ext`. -/
def same_identity (c_ext : lysc_ext_instance) : ext_slot → Bool
  | ext_slot.self => false
  | ext_slot.other e => decide (e.def_ = c_ext.def_) && decide (e.argument = c_ext.argument)

/-- Section 4.3, "Ordering: placement → duplicate → collision; first failure
short-circuits": the failure the specification reports for an input, `none` when the
three checks pass. Written from the words of the specification, with list search. -/
def first_failure (w : World) : Option check_failure :=
  if w.c_ext.parent_stmt ≠ LY_STMT_MODULE ∧ w.c_ext.parent_stmt ≠ LY_STMT_SUBMODULE then
    some check_failure.IllegalPlacement
  else if w.mod_c.exts.any (same_identity w.c_ext) then
    some check_failure.DuplicateExtensionInstance
  else
    (w.mod_c.data.find? (fun node => decide (node.name = w.c_ext.argument))).map
      (fun node => check_failure.IdentifierCollision node.nodetype)

/-- The diagnostic the callback logs for each failure of section 4.3. -/
def failure_event (p_ext : lysp_ext_instance) (w : World) : check_failure → Event
  | check_failure.IllegalPlacement =>
    Event.lyplg_ext_log LY_LLERR LY_EVALID w.cctx.path
      (ext_msg.non_top_level p_ext.name w.c_ext.parent_stmt)
  | check_failure.DuplicateExtensionInstance =>
    Event.lyplg_ext_log LY_LLERR LY_EVALID w.cctx.path
      (ext_msg.instantiated_multiple_times p_ext.name)
  | check_failure.IdentifierCollision kind =>
    Event.lyplg_ext_log LY_LLERR LY_EVALID w.cctx.path (ext_msg.collides p_ext.name kind)

/-- Modelled from the spec: the loop of the schema compiler over the extension instances
of a module, which is outside the sources, for two instances `a` and `b`
compiled in this order: "each call seeing in the module's extension list the instances
compiled before it plus itself". `earlier` are the instances compiled before the two. -/
def compile_both (env : ext_env) (p_a p_b : lysp_ext_instance) (cctx : lysc_ctx)
    (earlier : List lysc_ext_instance) (data : List lysc_node) (a b : lysc_ext_instance) :
    compile_result × compile_result :=
  let r1 := structure_compile env p_a
    { cctx := cctx, c_ext := a,
      mod_c := { exts := earlier.map ext_slot.other ++ [ext_slot.self], data := data } }
  let r2 := structure_compile env p_b
    { cctx := r1.world.cctx, c_ext := b,
      mod_c := { exts := earlier.map ext_slot.other ++
                   [ext_slot.other r1.world.c_ext, ext_slot.self],
                 data := r1.world.mod_c.data } }
  (r1, r2)

/-- The last element of the non-empty list `x :: l`. -/
def last_of (x : Nat) : List Nat → Nat
  | [] => x
  | y :: l => last_of y l

/-- The parent links of a data tree along `chain`: each node of the list has the next
one as its parent, and the last one has no parent (a finite parent chain, ending at a
top-level node). -/
def parent_chain (mem : List lyd_node) : List Nat → Bool
  | [] => false
  | [top] =>
    match mem[top]? with
    | some node => node.parent == none
    | none => false
  | n :: p :: rest =>
    (match mem[n]? with
     | some node => node.parent == some p
     | none => false) && parent_chain mem (p :: rest)

/-- The sibling links along a list of nodes: each node has the next one of the list as
its `next`, and is the `prev` of that one. -/
def next_linked (mem : List lyd_node) : List Nat → Bool
  | [] => true
  | [_] => true
  | s :: t :: rest =>
    (match mem[s]?, mem[t]? with
     | some a, some b => a.next == some t && b.prev == some s
     | _, _ => false) && next_linked mem (t :: rest)

/-- A well-formed list of siblings `first :: rest`: linked by `next` and `prev`, the
`next` of the last sibling is `NULL`, and the `prev` of the first sibling is the last. -/
def sibling_list (mem : List lyd_node) (first : Nat) (rest : List Nat) : Bool :=
  next_linked mem (first :: rest) &&
    (match mem[last_of first rest]?, mem[first]? with
     | some l, some f => l.next == none && f.prev == some (last_of first rest)
     | _, _ => false)

/-! ## Concrete inputs -/

/-- A parsed instance of the structure extension. -/
def sx_structure : lysp_ext_instance := { name := "sx:structure" }

/-- A compile context with one option bit set. -/
def example_cctx : lysc_ctx := { options := 1, path := "/example:structure" }

/-- An instance of extension definition 7 with the given argument and parent, as the
schema compiler hands it over: nothing attached. -/
def example_instance (argument : String) (parent_stmt : ly_stmt) : lysc_ext_instance :=
  { def_ := 7, argument := argument, parent_stmt := parent_stmt, data := none,
    substmts := none }

/-- An engine that succeeds, sets the status flags and changes the options. -/
def example_engine (_p_ext : lysp_ext_instance) (w : World) : engine_result :=
  { ret := LY_SUCCESS, options := w.cctx.options + 16,
    data := { calloc_struct_ext with flags := 1 } }

/-- Both allocations succeed, the engine succeeds; the flags have the values 4 and 8. -/
def example_env : ext_env :=
  { LYS_COMPILE_NO_CONFIG := 4, LYS_COMPILE_NO_DISABLED := 8, calloc_ok := true,
    array_create_ok := true, lys_compile_extension_instance := example_engine }

/-- As `example_env`, with the allocation of the binding array failing. -/
def array_failure_env : ext_env := { example_env with array_create_ok := false }

/-- An instance "foo" placed under a container, in a module that holds another instance
"foo" of the same definition and a top-level leaf "foo": all three checks are violated. -/
def world_under_container : World :=
  { cctx := example_cctx, c_ext := example_instance "foo" LY_STMT_CONTAINER,
    mod_c := { exts := [ext_slot.other (example_instance "foo" LY_STMT_MODULE)],
               data := [{ nodetype := 4, name := "foo" }] } }

/-- An instance "foo" at the top level of a module whose extension list holds it alone
and whose only data node is named "Foo". -/
def world_top_level : World :=
  { cctx := example_cctx, c_ext := example_instance "foo" LY_STMT_MODULE,
    mod_c := { exts := [ext_slot.self], data := [{ nodetype := 1, name := "Foo" }] } }

/-- A module that already holds an instance "foo" of definition 7. -/
def earlier_foo : List lysc_ext_instance := [example_instance "foo" LY_STMT_MODULE]

/-- Three top-level siblings 0, 1, 2 and a child 3 of the middle one. -/
def three_siblings : List lyd_node :=
  [{ parent := none, next := some 1, prev := some 2 },
   { parent := none, next := some 2, prev := some 0 },
   { parent := none, next := none, prev := some 1 },
   { parent := some 1, next := none, prev := some 3 }]

/-- A sink that has counted 42 bytes. -/
def example_out : ly_out := { func_printed := 42, written := [60, 97, 47, 62] }

/-- Serializers that write one byte and succeed, or fail in the binary format; the
with-siblings flag has the value 1. -/
def example_print_env : print_env :=
  { LYD_PRINT_WITHSIBLINGS := 1,
    xml_print_data := fun out _ _ =>
      (LY_SUCCESS, { func_printed := out.func_printed + 1, written := out.written ++ [60] }),
    lyb_print_data := fun out _ _ => (LY_ESYS, out),
    ly_out_new_memory := (LY_SUCCESS, { func_printed := 0, written := [] }) }

/-! ## Lemmas on the loops -/

theorem strcmp_eq_zero_iff (s1 s2 : String) : strcmp s1 s2 = 0 ↔ s1 = s2 := by
  unfold strcmp
  split_ifs <;> simp_all

theorem exts_loop_iff (c_ext : lysc_ext_instance) (exts : List ext_slot) :
    exts_loop c_ext exts = true ↔
      ∃ e, ext_slot.other e ∈ exts ∧ e.def_ = c_ext.def_ ∧ e.argument = c_ext.argument := by
  induction exts with
  | nil => simp [exts_loop]
  | cons s rest ih =>
    cases s with
    | self => simp [exts_loop, ih]
    | other e =>
      by_cases h : e.def_ = c_ext.def_ ∧ e.argument = c_ext.argument
      · have : exts_loop c_ext (ext_slot.other e :: rest) = true := by
          simp [exts_loop, strcmp_eq_zero_iff, h.1, h.2]
        simp only [this, true_iff]
        exact ⟨e, by simp, h.1, h.2⟩
      · have hstep : exts_loop c_ext (ext_slot.other e :: rest) = exts_loop c_ext rest := by
          simp only [exts_loop, strcmp_eq_zero_iff]
          rw [if_neg h]
        rw [hstep, ih]
        constructor
        · rintro ⟨x, hx, hd⟩
          exact ⟨x, by simp [hx], hd⟩
        · rintro ⟨x, hx, hd⟩
          simp only [List.mem_cons, ext_slot.other.injEq] at hx
          rcases hx with hx | hx
          · subst hx
            exact absurd hd h
          · exact ⟨x, hx, hd⟩

theorem exts_loop_eq_any (c_ext : lysc_ext_instance) (exts : List ext_slot) :
    exts_loop c_ext exts = exts.any (same_identity c_ext) := by
  induction exts with
  | nil => simp [exts_loop]
  | cons s rest ih =>
    cases s with
    | self => simp [exts_loop, same_identity, ih]
    | other e =>
      by_cases h : e.def_ = c_ext.def_ ∧ e.argument = c_ext.argument
      · simp [exts_loop, same_identity, strcmp_eq_zero_iff, h.1, h.2]
      · have hstep : exts_loop c_ext (ext_slot.other e :: rest) = exts_loop c_ext rest := by
          simp only [exts_loop, strcmp_eq_zero_iff]
          rw [if_neg h]
        have hs : same_identity c_ext (ext_slot.other e) = false := by
          simp only [same_identity, Bool.and_eq_false_imp, decide_eq_true_eq, decide_eq_false_iff_not]
          intro hd ha
          exact h ⟨hd, ha⟩
        rw [hstep, ih, List.any_cons, hs, Bool.false_or]

theorem data_loop_eq_find (c_ext : lysc_ext_instance) (data : List lysc_node) :
    data_loop c_ext data = data.find? (fun node => decide (node.name = c_ext.argument)) := by
  induction data with
  | nil => simp [data_loop]
  | cons child rest ih =>
    by_cases h : child.name = c_ext.argument
    · simp [data_loop, strcmp_eq_zero_iff, h]
    · simp [data_loop, strcmp_eq_zero_iff, h, ih]

theorem data_loop_eq_none_iff (c_ext : lysc_ext_instance) (data : List lysc_node) :
    data_loop c_ext data = none ↔ ¬ ∃ node ∈ data, node.name = c_ext.argument := by
  rw [data_loop_eq_find]
  simp

theorem first_failure_eq_none_iff (w : World) :
    first_failure w = none ↔
      legal_placement w.c_ext ∧ ¬ duplicate_instance w ∧ ¬ identifier_collision w := by
  unfold first_failure legal_placement duplicate_instance identifier_collision
  rw [← exts_loop_eq_any, ← data_loop_eq_find]
  by_cases hp : w.c_ext.parent_stmt ≠ LY_STMT_MODULE ∧ w.c_ext.parent_stmt ≠ LY_STMT_SUBMODULE
  · rw [if_pos hp]
    simp only [false_iff, not_and, reduceCtorEq]
    intro hl
    rcases hl with hl | hl
    · exact absurd hl hp.1
    · exact absurd hl hp.2
  · rw [if_neg hp]
    have hl : w.c_ext.parent_stmt = LY_STMT_MODULE ∨ w.c_ext.parent_stmt = LY_STMT_SUBMODULE := by
      by_contra hc
      exact hp ⟨fun h => hc (Or.inl h), fun h => hc (Or.inr h)⟩
    by_cases hd : exts_loop w.c_ext w.mod_c.exts = true
    · rw [if_pos hd]
      simp only [false_iff, not_and, reduceCtorEq]
      intro _ hnd
      exact absurd ((exts_loop_iff _ _).1 hd) hnd
    · rw [if_neg hd]
      have hnd := fun h => hd ((exts_loop_iff _ _).2 h)
      simp only [Option.map_eq_none', data_loop_eq_none_iff]
      exact ⟨fun h => ⟨hl, hnd, h⟩, fun h => h.2.2⟩

theorem structure_compile_of_failure (env : ext_env) (p_ext : lysp_ext_instance) (w : World)
    (f : check_failure) (h : first_failure w = some f) :
    structure_compile env p_ext w =
      { ret := LY_EVALID, world := w, trace := [failure_event p_ext w f] } := by
  unfold first_failure at h
  unfold structure_compile
  rw [← exts_loop_eq_any, ← data_loop_eq_find] at h
  by_cases hp : w.c_ext.parent_stmt ≠ LY_STMT_MODULE ∧ w.c_ext.parent_stmt ≠ LY_STMT_SUBMODULE
  · rw [if_pos hp] at h
    simp only [Option.some.injEq] at h
    subst h
    simp only [if_pos hp, failure_event]
  · rw [if_neg hp] at h
    simp only [if_neg hp]
    by_cases hd : exts_loop w.c_ext w.mod_c.exts = true
    · rw [if_pos hd] at h
      simp only [Option.some.injEq] at h
      subst h
      simp only [if_pos hd, failure_event]
    · rw [if_neg hd] at h
      simp only [if_neg hd]
      cases hc : data_loop w.c_ext w.mod_c.data with
      | none => simp [hc] at h
      | some child =>
        rw [hc] at h
        simp only [Option.map_some', Option.some.injEq] at h
        subst h
        simp only [failure_event]

theorem structure_compile_of_pass (env : ext_env) (p_ext : lysp_ext_instance) (w : World)
    (h : first_failure w = none) :
    structure_compile env p_ext w = allocate_and_compile env p_ext w.cctx.options w := by
  unfold first_failure at h
  unfold structure_compile
  rw [← exts_loop_eq_any, ← data_loop_eq_find] at h
  by_cases hp : w.c_ext.parent_stmt ≠ LY_STMT_MODULE ∧ w.c_ext.parent_stmt ≠ LY_STMT_SUBMODULE
  · rw [if_pos hp] at h
    simp at h
  · rw [if_neg hp] at h
    simp only [if_neg hp]
    by_cases hd : exts_loop w.c_ext w.mod_c.exts = true
    · rw [if_pos hd] at h
      simp at h
    · rw [if_neg hd] at h
      simp only [if_neg hd]
      cases hc : data_loop w.c_ext w.mod_c.data with
      | none => rfl
      | some child => simp [hc] at h

theorem allocate_and_compile_ok (env : ext_env) (p_ext : lysp_ext_instance) (prev : Nat)
    (w : World) (hc : env.calloc_ok = true) (ha : env.array_create_ok = true) :
    allocate_and_compile env p_ext prev w =
      { ret := (env.lys_compile_extension_instance p_ext (engine_world env w)).ret,
        world :=
          { cctx := { options := prev, path := w.cctx.path },
            c_ext := { (engine_world env w).c_ext with
              data := some (env.lys_compile_extension_instance p_ext (engine_world env w)).data },
            mod_c := w.mod_c },
        trace := [Event.calloc true, Event.LY_ARRAY_CREATE true,
          Event.lys_compile_extension_instance p_ext (engine_world env w)] } := by
  unfold allocate_and_compile
  simp only [hc, ha, Bool.true_eq_false, if_false]
  by_cases hr : (env.lys_compile_extension_instance p_ext (engine_world env w)).ret = LY_SUCCESS
  · simp only [engine_world] at hr ⊢
    simp only [hr, ne_eq, not_true_eq_false, if_false]
    rfl
  · simp only [engine_world] at hr ⊢
    simp only [hr, ne_eq, not_false_eq_true, if_true]
    rfl

theorem allocate_and_compile_calloc_failed (env : ext_env) (p_ext : lysp_ext_instance)
    (prev : Nat) (w : World) (hc : env.calloc_ok = false) :
    allocate_and_compile env p_ext prev w = emem w [Event.calloc false] := by
  unfold allocate_and_compile
  simp only [hc, if_true]

theorem allocate_and_compile_array_failed (env : ext_env) (p_ext : lysp_ext_instance)
    (prev : Nat) (w : World) (hc : env.calloc_ok = true) (ha : env.array_create_ok = false) :
    allocate_and_compile env p_ext prev w =
      emem { w with c_ext := { w.c_ext with data := some calloc_struct_ext, substmts := none } }
        [Event.calloc true, Event.LY_ARRAY_CREATE false] := by
  unfold allocate_and_compile
  simp only [hc, ha, Bool.true_eq_false, if_false, if_true]

theorem allocate_and_compile_options (env : ext_env) (p_ext : lysp_ext_instance) (w : World) :
    (allocate_and_compile env p_ext w.cctx.options w).world.cctx.options = w.cctx.options := by
  cases hc : env.calloc_ok with
  | false => rw [allocate_and_compile_calloc_failed env p_ext _ w hc]; rfl
  | true =>
    cases ha : env.array_create_ok with
    | false => rw [allocate_and_compile_array_failed env p_ext _ w hc ha]; rfl
    | true => rw [allocate_and_compile_ok env p_ext _ w hc ha]

theorem allocate_and_compile_engine_world (env : ext_env) (p_ext p : lysp_ext_instance)
    (prev : Nat) (w w1 : World)
    (h : Event.lys_compile_extension_instance p w1 ∈
      (allocate_and_compile env p_ext prev w).trace) :
    env.calloc_ok = true ∧ env.array_create_ok = true ∧ p = p_ext ∧
      w1 = engine_world env w := by
  cases hc : env.calloc_ok with
  | false =>
    rw [allocate_and_compile_calloc_failed env p_ext _ w hc] at h
    simp [emem] at h
  | true =>
    cases ha : env.array_create_ok with
    | false =>
      rw [allocate_and_compile_array_failed env p_ext _ w hc ha] at h
      simp [emem] at h
    | true =>
      rw [allocate_and_compile_ok env p_ext _ w hc ha] at h
      simp only [List.mem_cons, reduceCtorEq, Event.lys_compile_extension_instance.injEq,
        List.mem_singleton, false_or, List.not_mem_nil, or_false] at h
      exact ⟨rfl, rfl, h.1, h.2⟩

theorem structure_compile_engine_world (env : ext_env) (p_ext p : lysp_ext_instance)
    (w w1 : World)
    (h : Event.lys_compile_extension_instance p w1 ∈ (structure_compile env p_ext w).trace) :
    first_failure w = none ∧ env.calloc_ok = true ∧ env.array_create_ok = true ∧
      p = p_ext ∧ w1 = engine_world env w := by
  cases hf : first_failure w with
  | some f =>
    rw [structure_compile_of_failure env p_ext w f hf] at h
    cases f <;> simp [failure_event] at h
  | none =>
    rw [structure_compile_of_pass env p_ext w hf] at h
    exact ⟨rfl, allocate_and_compile_engine_world env p_ext p _ w w1 h⟩

theorem first_failure_of_duplicate (w : World) (hl : legal_placement w.c_ext)
    (hd : duplicate_instance w) :
    first_failure w = some check_failure.DuplicateExtensionInstance := by
  unfold first_failure
  have hp : ¬ (w.c_ext.parent_stmt ≠ LY_STMT_MODULE ∧
      w.c_ext.parent_stmt ≠ LY_STMT_SUBMODULE) := by
    rintro ⟨h1, h2⟩
    rcases hl with hl | hl
    · exact h1 hl
    · exact h2 hl
  rw [if_neg hp, ← exts_loop_eq_any, if_pos ((exts_loop_iff _ _).2 hd)]

theorem first_failure_of_illegal (w : World) (hl : ¬ legal_placement w.c_ext) :
    first_failure w = some check_failure.IllegalPlacement := by
  unfold first_failure
  have hp : w.c_ext.parent_stmt ≠ LY_STMT_MODULE ∧
      w.c_ext.parent_stmt ≠ LY_STMT_SUBMODULE :=
    ⟨fun hm => hl (Or.inl hm), fun hs => hl (Or.inr hs)⟩
  rw [if_pos hp]

theorem first_failure_of_collision (w : World) (hl : legal_placement w.c_ext)
    (hd : ¬ duplicate_instance w) (hx : identifier_collision w) :
    ∃ node ∈ w.mod_c.data, node.name = w.c_ext.argument ∧
      first_failure w = some (check_failure.IdentifierCollision node.nodetype) := by
  cases hf : first_failure w with
  | none => exact absurd hx ((first_failure_eq_none_iff w).1 hf).2.2
  | some f =>
    unfold first_failure at hf
    have hp : ¬ (w.c_ext.parent_stmt ≠ LY_STMT_MODULE ∧
        w.c_ext.parent_stmt ≠ LY_STMT_SUBMODULE) := by
      rintro ⟨h1, h2⟩
      rcases hl with hl | hl
      · exact h1 hl
      · exact h2 hl
    have hnd : ¬ (w.mod_c.exts.any (same_identity w.c_ext) = true) := by
      rw [← exts_loop_eq_any]
      exact fun hy => hd ((exts_loop_iff _ _).1 hy)
    rw [if_neg hp, if_neg hnd] at hf
    rcases Option.map_eq_some'.1 hf with ⟨node, hfind, hnode⟩
    refine ⟨node, List.mem_of_find?_eq_some hfind, ?_, congrArg some hnode.symm⟩
    simpa using List.find?_some hfind

theorem structure_compile_pass_world (env : ext_env) (p_ext : lysp_ext_instance) (w : World)
    (hf : first_failure w = none) (hc : env.calloc_ok = true)
    (ha : env.array_create_ok = true) :
    (structure_compile env p_ext w).ret =
      (env.lys_compile_extension_instance p_ext (engine_world env w)).ret ∧
    (structure_compile env p_ext w).world.c_ext.def_ = w.c_ext.def_ ∧
    (structure_compile env p_ext w).world.c_ext.argument = w.c_ext.argument ∧
    (structure_compile env p_ext w).world.mod_c = w.mod_c ∧
    (structure_compile env p_ext w).world.cctx = w.cctx := by
  rw [structure_compile_of_pass env p_ext w hf, allocate_and_compile_ok env p_ext _ w hc ha]
  exact ⟨rfl, rfl, rfl, rfl, rfl⟩

theorem compile_both_in_order (env : ext_env) (p_a p_b : lysp_ext_instance)
    (cctx : lysc_ctx) (earlier : List lysc_ext_instance) (data : List lysc_node)
    (a b : lysc_ext_instance) (hdef : a.def_ = b.def_) (harg : a.argument = b.argument)
    (hla : legal_placement a) (hlb : legal_placement b)
    (hdata : ∀ node ∈ data, node.name ≠ a.argument)
    (hearlier : ∀ e ∈ earlier, ¬ (e.def_ = a.def_ ∧ e.argument = a.argument))
    (hc : env.calloc_ok = true) (ha : env.array_create_ok = true)
    (he : ∀ p w, (env.lys_compile_extension_instance p w).ret = LY_SUCCESS) :
    (compile_both env p_a p_b cctx earlier data a b).1.ret = LY_SUCCESS ∧
    (compile_both env p_a p_b cctx earlier data a b).2.ret = LY_EVALID ∧
    (compile_both env p_a p_b cctx earlier data a b).2.trace =
      [Event.lyplg_ext_log LY_LLERR LY_EVALID cctx.path
        (ext_msg.instantiated_multiple_times p_b.name)] := by
  have hpass : first_failure
      { cctx := cctx, c_ext := a,
        mod_c := { exts := earlier.map ext_slot.other ++ [ext_slot.self], data := data } } =
      none := by
    rw [first_failure_eq_none_iff]
    refine ⟨hla, ?_, ?_⟩
    · rintro ⟨e, hmem, hd, hn⟩
      simp only [List.mem_append, List.mem_map, ext_slot.other.injEq, exists_eq_right,
        List.mem_singleton, reduceCtorEq, or_false] at hmem
      exact hearlier e hmem ⟨hd, hn⟩
    · rintro ⟨node, hmem, hn⟩
      exact hdata node hmem hn
  obtain ⟨hret, hd1, ha1, _, hcctx⟩ := structure_compile_pass_world env p_a _ hpass hc ha
  unfold compile_both
  refine ⟨hret.trans (he _ _), ?_⟩
  have hdup : first_failure
      { cctx := (structure_compile env p_a
          { cctx := cctx, c_ext := a,
            mod_c := { exts := earlier.map ext_slot.other ++ [ext_slot.self],
                       data := data } }).world.cctx,
        c_ext := b,
        mod_c :=
          { exts := earlier.map ext_slot.other ++
              [ext_slot.other (structure_compile env p_a
                { cctx := cctx, c_ext := a,
                  mod_c := { exts := earlier.map ext_slot.other ++ [ext_slot.self],
                             data := data } }).world.c_ext,
               ext_slot.self],
            data := (structure_compile env p_a
              { cctx := cctx, c_ext := a,
                mod_c := { exts := earlier.map ext_slot.other ++ [ext_slot.self],
                           data := data } }).world.mod_c.data } } =
      some check_failure.DuplicateExtensionInstance := by
    apply first_failure_of_duplicate _ hlb
    exact ⟨(structure_compile env p_a
        { cctx := cctx, c_ext := a,
          mod_c := { exts := earlier.map ext_slot.other ++ [ext_slot.self],
                     data := data } }).world.c_ext,
      List.mem_append_right _ (List.mem_cons_self _ _), hd1.trans hdef, ha1.trans harg⟩
  have hrun := structure_compile_of_failure env p_b _ _ hdup
  refine ⟨congrArg compile_result.ret hrun, ?_⟩
  refine (congrArg compile_result.trace hrun).trans ?_
  simp only [failure_event, hcctx]

theorem parent_loop_chain (mem : List lyd_node) (chain : List Nat) :
    ∀ (n fuel : Nat), parent_chain mem (n :: chain) = true → chain.length < fuel →
      parent_loop mem fuel n = some (last_of n chain) := by
  induction chain with
  | nil =>
    intro n fuel h hfuel
    obtain ⟨k, rfl⟩ : ∃ k, fuel = k + 1 := ⟨fuel - 1, by simp at hfuel; omega⟩
    cases hn : mem[n]? with
    | none => simp [parent_chain, hn] at h
    | some node =>
      simp only [parent_chain, hn, beq_iff_eq] at h
      simp [parent_loop, hn, h, last_of]
  | cons p rest ih =>
    intro n fuel h hfuel
    obtain ⟨k, rfl⟩ : ∃ k, fuel = k + 1 := ⟨fuel - 1, by simp at hfuel; omega⟩
    cases hn : mem[n]? with
    | none => simp [parent_chain, hn] at h
    | some node =>
      simp only [parent_chain, hn, Bool.and_eq_true, beq_iff_eq] at h
      have hrec := ih p k h.2 (by simp at hfuel; omega)
      simp only [parent_loop, hn, h.1, hrec, last_of]

theorem next_linked_get (mem : List lyd_node) (l : List Nat) :
    ∀ (i s t : Nat), next_linked mem l = true → l[i]? = some s → l[i + 1]? = some t →
      ∃ a b, mem[s]? = some a ∧ mem[t]? = some b ∧ a.next = some t ∧ b.prev = some s := by
  induction l with
  | nil => intro i s t _ hs; simp at hs
  | cons x rest ih =>
    intro i s t h hs ht
    cases rest with
    | nil => simp at ht
    | cons y rest2 =>
      cases i with
      | zero =>
        simp only [List.getElem?_cons_zero, Option.some.injEq] at hs
        simp only [zero_add, List.getElem?_cons_succ, List.getElem?_cons_zero,
          Option.some.injEq] at ht
        subst hs ht
        simp only [next_linked, Bool.and_eq_true] at h
        cases hx : mem[x]? with
        | none => simp [hx] at h
        | some a =>
          cases hy : mem[y]? with
          | none => simp [hx, hy] at h
          | some b =>
            simp only [hx, hy, Bool.and_eq_true, beq_iff_eq] at h
            exact ⟨a, b, rfl, rfl, h.1.1, h.1.2⟩
      | succ j =>
        simp only [next_linked, Bool.and_eq_true] at h
        simp only [List.getElem?_cons_succ] at hs ht
        exact ih j s t h.2 hs (by simpa using ht)

theorem prev_loop_first (mem : List lyd_node) (first : Nat) (rest : List Nat)
    (h : sibling_list mem first rest = true) :
    ∀ (i s fuel : Nat), (first :: rest)[i]? = some s → i < fuel →
      prev_loop mem fuel s = some first := by
  simp only [sibling_list, Bool.and_eq_true] at h
  intro i
  induction i with
  | zero =>
    intro s fuel hs hfuel
    obtain ⟨k, rfl⟩ : ∃ k, fuel = k + 1 := ⟨fuel - 1, by omega⟩
    simp only [List.getElem?_cons_zero, Option.some.injEq] at hs
    subst hs
    cases hl : mem[last_of first rest]? with
    | none => simp [hl] at h
    | some l =>
      cases hf : mem[first]? with
      | none => simp [hl, hf] at h
      | some f =>
        simp only [hl, hf, Bool.and_eq_true, beq_iff_eq] at h
        simp [prev_loop, hf, h.2.2, hl, h.2.1]
  | succ j ih =>
    intro s fuel hs hfuel
    obtain ⟨k, rfl⟩ : ∃ k, fuel = k + 1 := ⟨fuel - 1, by omega⟩
    have hlen : j + 1 < (first :: rest).length := by
      by_contra hge
      rw [List.getElem?_eq_none (by omega)] at hs
      exact absurd hs (by simp)
    have ht : (first :: rest)[j]? = some ((first :: rest)[j]) :=
      List.getElem?_eq_getElem (by omega)
    obtain ⟨a, b, ha, hb, hnext, hprev⟩ :=
      next_linked_get mem (first :: rest) j _ s h.1 ht hs
    have hrec := ih _ k ht (by omega)
    simp [prev_loop, hb, hprev, ha, hnext, hrec]

theorem lor_land_self (a b : Nat) : (a ||| b) &&& b = b := by
  apply Nat.eq_of_testBit_eq
  intro i
  simp only [Nat.testBit_land, Nat.testBit_lor]
  cases a.testBit i <;> cases b.testBit i <;> rfl

/-! ## The claims -/

/-- C1: an instance of the structure extension whose parent statement is neither module
nor submodule is rejected with `LY_EVALID`, whatever its argument and whatever the module
holds; the memory of the call, with the module's extension list and data-node list, is as
before, and the one outside call is the log of the illegal placement. -/
theorem structure_compile_illegal_placement (env : ext_env) (p_ext : lysp_ext_instance)
    (w : World) (hm : w.c_ext.parent_stmt ≠ LY_STMT_MODULE)
    (hs : w.c_ext.parent_stmt ≠ LY_STMT_SUBMODULE) :
    (structure_compile env p_ext w).ret = LY_EVALID ∧
    (structure_compile env p_ext w).world.mod_c.exts = w.mod_c.exts ∧
    (structure_compile env p_ext w).world.mod_c.data = w.mod_c.data ∧
    (structure_compile env p_ext w).world = w ∧
    (structure_compile env p_ext w).trace =
      [Event.lyplg_ext_log LY_LLERR LY_EVALID w.cctx.path
        (ext_msg.non_top_level p_ext.name w.c_ext.parent_stmt)] := by
  have h : structure_compile env p_ext w =
      { ret := LY_EVALID, world := w,
        trace := [Event.lyplg_ext_log LY_LLERR LY_EVALID w.cctx.path
          (ext_msg.non_top_level p_ext.name w.c_ext.parent_stmt)] } := by
    unfold structure_compile
    simp only [if_pos (And.intro hm hs)]
  rw [h]
  exact ⟨rfl, rfl, rfl, rfl, rfl⟩

/-- Witness of C1: the instance under a container, in a module holding a duplicate and a
colliding node. -/
theorem structure_compile_illegal_placement_witness :
    world_under_container.c_ext.parent_stmt ≠ LY_STMT_MODULE ∧
    world_under_container.c_ext.parent_stmt ≠ LY_STMT_SUBMODULE ∧
    (structure_compile example_env sx_structure world_under_container).ret = LY_EVALID ∧
    (structure_compile example_env sx_structure world_under_container).world.mod_c.exts =
      world_under_container.mod_c.exts ∧
    (structure_compile example_env sx_structure world_under_container).world.mod_c.data =
      world_under_container.mod_c.data ∧
    (structure_compile example_env sx_structure world_under_container).world =
      world_under_container ∧
    (structure_compile example_env sx_structure world_under_container).trace =
      [Event.lyplg_ext_log LY_LLERR LY_EVALID world_under_container.cctx.path
        (ext_msg.non_top_level sx_structure.name world_under_container.c_ext.parent_stmt)] :=
  ⟨by decide, by decide,
    structure_compile_illegal_placement example_env sx_structure world_under_container
      (by decide) (by decide)⟩

/-- C4: the checks run in the order placement, duplicate instance, namespace collision,
and the first failing one decides. For every input that fails any of the three, the call
returns `LY_EVALID` with the memory exactly as before (private data pointer and binding
array included) and with a single outside call, the log of the earliest failing check:
nothing is allocated and the substatement engine is not invoked. -/
theorem structure_compile_first_failure (env : ext_env) (p_ext : lysp_ext_instance)
    (w : World)
    (h : ¬ legal_placement w.c_ext ∨ duplicate_instance w ∨ identifier_collision w) :
    ∃ f, first_failure w = some f ∧
      structure_compile env p_ext w =
        { ret := LY_EVALID, world := w, trace := [failure_event p_ext w f] } ∧
      (structure_compile env p_ext w).world.c_ext.data = w.c_ext.data ∧
      (structure_compile env p_ext w).world.c_ext.substmts = w.c_ext.substmts ∧
      (¬ legal_placement w.c_ext → f = check_failure.IllegalPlacement) ∧
      (legal_placement w.c_ext → duplicate_instance w →
        f = check_failure.DuplicateExtensionInstance) ∧
      (legal_placement w.c_ext → ¬ duplicate_instance w →
        ∃ node ∈ w.mod_c.data, node.name = w.c_ext.argument ∧
          f = check_failure.IdentifierCollision node.nodetype) := by
  by_cases hl : legal_placement w.c_ext
  · by_cases hd : duplicate_instance w
    · have hf := first_failure_of_duplicate w hl hd
      have hrun := structure_compile_of_failure env p_ext w _ hf
      exact ⟨_, hf, hrun, by rw [hrun], by rw [hrun], fun hn => absurd hl hn,
        fun _ _ => rfl, fun _ hn => absurd hd hn⟩
    · have hx : identifier_collision w := by
        rcases h with h | h | h
        · exact absurd hl h
        · exact absurd h hd
        · exact h
      obtain ⟨node, hmem, hname, hf⟩ := first_failure_of_collision w hl hd hx
      have hrun := structure_compile_of_failure env p_ext w _ hf
      exact ⟨_, hf, hrun, by rw [hrun], by rw [hrun], fun hn => absurd hl hn,
        fun _ hy => absurd hy hd, fun _ _ => ⟨node, hmem, hname, rfl⟩⟩
  · have hf := first_failure_of_illegal w hl
    have hrun := structure_compile_of_failure env p_ext w _ hf
    exact ⟨_, hf, hrun, by rw [hrun], by rw [hrun], fun _ => rfl,
      fun hy => absurd hy hl, fun hy => absurd hy hl⟩

/-- Witness of C4: the instance that violates all three checks is reported as illegally
placed. -/
theorem structure_compile_first_failure_witness :
    (¬ legal_placement world_under_container.c_ext ∨
      duplicate_instance world_under_container ∨
      identifier_collision world_under_container) ∧
    ∃ f, first_failure world_under_container = some f ∧
      structure_compile example_env sx_structure world_under_container =
        { ret := LY_EVALID, world := world_under_container,
          trace := [failure_event sx_structure world_under_container f] } ∧
      (structure_compile example_env sx_structure world_under_container).world.c_ext.data =
        world_under_container.c_ext.data ∧
      (structure_compile example_env sx_structure world_under_container).world.c_ext.substmts =
        world_under_container.c_ext.substmts ∧
      (¬ legal_placement world_under_container.c_ext → f = check_failure.IllegalPlacement) ∧
      (legal_placement world_under_container.c_ext →
        duplicate_instance world_under_container →
        f = check_failure.DuplicateExtensionInstance) ∧
      (legal_placement world_under_container.c_ext →
        ¬ duplicate_instance world_under_container →
        ∃ node ∈ world_under_container.mod_c.data,
          node.name = world_under_container.c_ext.argument ∧
          f = check_failure.IdentifierCollision node.nodetype) :=
  ⟨Or.inr (Or.inr ⟨{ nodetype := 4, name := "foo" }, by decide, by decide⟩),
    structure_compile_first_failure example_env sx_structure world_under_container
      (Or.inr (Or.inr ⟨{ nodetype := 4, name := "foo" }, by decide, by decide⟩))⟩

/-- C5: whatever the input and however the call returns, the option bitfield of the
compile context after the call is its value before the call; whenever the engine is
invoked, it runs with the two flags or-ed into that value, and it is invoked whenever the
three checks pass and both allocations succeed. -/
theorem structure_compile_restores_options (env : ext_env) (p_ext : lysp_ext_instance)
    (w : World) :
    (structure_compile env p_ext w).world.cctx.options = w.cctx.options ∧
    (∀ p w1, Event.lys_compile_extension_instance p w1 ∈
        (structure_compile env p_ext w).trace →
      w1.cctx.options =
        (w.cctx.options ||| (env.LYS_COMPILE_NO_CONFIG ||| env.LYS_COMPILE_NO_DISABLED))
          % 2 ^ 32) ∧
    (first_failure w = none → env.calloc_ok = true → env.array_create_ok = true →
      (structure_compile env p_ext w).trace =
        [Event.calloc true, Event.LY_ARRAY_CREATE true,
          Event.lys_compile_extension_instance p_ext (engine_world env w)] ∧
      (structure_compile env p_ext w).ret =
        (env.lys_compile_extension_instance p_ext (engine_world env w)).ret) := by
  refine ⟨?_, ?_, ?_⟩
  · cases hf : first_failure w with
    | some f => rw [structure_compile_of_failure env p_ext w f hf]
    | none =>
      rw [structure_compile_of_pass env p_ext w hf]
      exact allocate_and_compile_options env p_ext w
  · intro p w1 h
    rw [(structure_compile_engine_world env p_ext p w w1 h).2.2.2.2]
    rfl
  · intro hf hc ha
    rw [structure_compile_of_pass env p_ext w hf, allocate_and_compile_ok env p_ext _ w hc ha]
    exact ⟨rfl, rfl⟩

/-- C3: for an instance with a legal parent and no duplicate in the module, with both
allocations and the engine succeeding, the call returns `LY_EVALID` exactly when some
node of the module's top-level data-node list has a name equal to the argument (equality
of the texts, nothing normalized), logging the collision with that node; otherwise it
returns `LY_SUCCESS`. -/
theorem structure_compile_collision_iff (env : ext_env) (p_ext : lysp_ext_instance)
    (w : World) (hl : legal_placement w.c_ext) (hd : ¬ duplicate_instance w)
    (hc : env.calloc_ok = true) (ha : env.array_create_ok = true)
    (he : ∀ p w1, (env.lys_compile_extension_instance p w1).ret = LY_SUCCESS) :
    ((structure_compile env p_ext w).ret = LY_EVALID ↔
      ∃ node ∈ w.mod_c.data, node.name = w.c_ext.argument) ∧
    ((∃ node ∈ w.mod_c.data, node.name = w.c_ext.argument) →
      ∃ node ∈ w.mod_c.data, node.name = w.c_ext.argument ∧
        (structure_compile env p_ext w).trace =
          [Event.lyplg_ext_log LY_LLERR LY_EVALID w.cctx.path
            (ext_msg.collides p_ext.name node.nodetype)]) ∧
    ((¬ ∃ node ∈ w.mod_c.data, node.name = w.c_ext.argument) →
      (structure_compile env p_ext w).ret = LY_SUCCESS) := by
  have hsucc : (¬ ∃ node ∈ w.mod_c.data, node.name = w.c_ext.argument) →
      (structure_compile env p_ext w).ret = LY_SUCCESS := by
    intro hn
    have hf : first_failure w = none := (first_failure_eq_none_iff w).2 ⟨hl, hd, hn⟩
    rw [structure_compile_of_pass env p_ext w hf, allocate_and_compile_ok env p_ext _ w hc ha]
    exact he _ _
  have hcoll : (∃ node ∈ w.mod_c.data, node.name = w.c_ext.argument) →
      ∃ node ∈ w.mod_c.data, node.name = w.c_ext.argument ∧
        structure_compile env p_ext w =
          { ret := LY_EVALID, world := w,
            trace := [Event.lyplg_ext_log LY_LLERR LY_EVALID w.cctx.path
              (ext_msg.collides p_ext.name node.nodetype)] } := by
    intro hx
    obtain ⟨node, hmem, hname, hf⟩ := first_failure_of_collision w hl hd hx
    exact ⟨node, hmem, hname, structure_compile_of_failure env p_ext w _ hf⟩
  refine ⟨⟨?_, ?_⟩, ?_, hsucc⟩
  · intro hret
    by_contra hn
    rw [hsucc hn] at hret
    exact absurd hret (by decide)
  · intro hx
    obtain ⟨node, _, _, hrun⟩ := hcoll hx
    rw [hrun]
  · intro hx
    obtain ⟨node, hmem, hname, hrun⟩ := hcoll hx
    exact ⟨node, hmem, hname, by rw [hrun]⟩

/-- Witness of C3: the argument "foo" next to a data node "Foo" does not collide. -/
theorem structure_compile_collision_iff_witness :
    legal_placement world_top_level.c_ext ∧ ¬ duplicate_instance world_top_level ∧
    ((structure_compile example_env sx_structure world_top_level).ret = LY_EVALID ↔
      ∃ node ∈ world_top_level.mod_c.data, node.name = world_top_level.c_ext.argument) ∧
    ((∃ node ∈ world_top_level.mod_c.data, node.name = world_top_level.c_ext.argument) →
      ∃ node ∈ world_top_level.mod_c.data, node.name = world_top_level.c_ext.argument ∧
        (structure_compile example_env sx_structure world_top_level).trace =
          [Event.lyplg_ext_log LY_LLERR LY_EVALID world_top_level.cctx.path
            (ext_msg.collides sx_structure.name node.nodetype)]) ∧
    ((¬ ∃ node ∈ world_top_level.mod_c.data, node.name = world_top_level.c_ext.argument) →
      (structure_compile example_env sx_structure world_top_level).ret = LY_SUCCESS) :=
  ⟨Or.inl rfl, by simp [duplicate_instance, world_top_level],
    structure_compile_collision_iff example_env sx_structure world_top_level (Or.inl rfl)
      (by simp [duplicate_instance, world_top_level]) rfl rfl (fun _ _ => rfl)⟩

/-- Counterexample to C6 as stated: the instance "foo" arrives with nothing attached and
passes the three checks; the private block is allocated, the allocation of the binding
array fails. The call returns `LY_EMEM` and the zeroed private block is attached to
the instance, without a binding array. -/
theorem structure_compile_array_failure_keeps_data :
    world_top_level.c_ext.data = none ∧ world_top_level.c_ext.substmts = none ∧
    first_failure world_top_level = none ∧
    array_failure_env.calloc_ok = true ∧ array_failure_env.array_create_ok = false ∧
    (structure_compile array_failure_env sx_structure world_top_level).ret = LY_EMEM ∧
    (structure_compile array_failure_env sx_structure world_top_level).world.c_ext.data =
      some calloc_struct_ext ∧
    (structure_compile array_failure_env sx_structure world_top_level).world.c_ext.data ≠
      none ∧
    (structure_compile array_failure_env sx_structure world_top_level).world.c_ext.substmts =
      none := by
  decide

/-- C6, amended: for an instance that passes the three checks, a failed allocation makes
the call return `LY_EMEM` without invoking the engine. When the allocation of the private
block fails, the memory is as before the call: nothing was attached. When the allocation
of the binding array fails, the zeroed private block allocated just before stays attached
to the instance and no binding array is attached. -/
theorem structure_compile_allocation_failure (env : ext_env) (p_ext : lysp_ext_instance)
    (w : World) (h : first_failure w = none) :
    (env.calloc_ok = false →
      (structure_compile env p_ext w).ret = LY_EMEM ∧
      (structure_compile env p_ext w).world = w) ∧
    (env.calloc_ok = true → env.array_create_ok = false →
      (structure_compile env p_ext w).ret = LY_EMEM ∧
      (structure_compile env p_ext w).world =
        { w with c_ext := { w.c_ext with data := some calloc_struct_ext,
                                         substmts := none } }) ∧
    ((env.calloc_ok = false ∨ env.array_create_ok = false) →
      ∀ p w1, Event.lys_compile_extension_instance p w1 ∉
        (structure_compile env p_ext w).trace) := by
  refine ⟨?_, ?_, ?_⟩
  · intro hc
    rw [structure_compile_of_pass env p_ext w h,
      allocate_and_compile_calloc_failed env p_ext _ w hc]
    exact ⟨rfl, rfl⟩
  · intro hc ha
    rw [structure_compile_of_pass env p_ext w h,
      allocate_and_compile_array_failed env p_ext _ w hc ha]
    exact ⟨rfl, rfl⟩
  · intro hfail p w1 hmem
    have hok := structure_compile_engine_world env p_ext p w w1 hmem
    rcases hfail with hc | ha
    · rw [hok.2.1] at hc
      exact absurd hc (by decide)
    · rw [hok.2.2.1] at ha
      exact absurd ha (by decide)

/-- Witness of C6, amended: the instance "foo" with the allocation of the binding array
failing. -/
theorem structure_compile_allocation_failure_witness :
    first_failure world_top_level = none ∧
    (array_failure_env.calloc_ok = false →
      (structure_compile array_failure_env sx_structure world_top_level).ret = LY_EMEM ∧
      (structure_compile array_failure_env sx_structure world_top_level).world =
        world_top_level) ∧
    (array_failure_env.calloc_ok = true → array_failure_env.array_create_ok = false →
      (structure_compile array_failure_env sx_structure world_top_level).ret = LY_EMEM ∧
      (structure_compile array_failure_env sx_structure world_top_level).world =
        { world_top_level with
          c_ext := { world_top_level.c_ext with data := some calloc_struct_ext,
                                                substmts := none } }) ∧
    ((array_failure_env.calloc_ok = false ∨ array_failure_env.array_create_ok = false) →
      ∀ p w1, Event.lys_compile_extension_instance p w1 ∉
        (structure_compile array_failure_env sx_structure world_top_level).trace) :=
  ⟨by decide,
    structure_compile_allocation_failure array_failure_env sx_structure world_top_level
      (by decide)⟩

/-- C10: whenever the callback reaches the substatement engine, the binding array of
the instance it hands over has exactly 14 entries, of pairwise distinct statement kinds, in
the order must, status, description, reference, typedef, grouping, container, leaf,
leaf-list, list, choice, anydata, anyxml, uses; status, description and reference are
optional-0-or-1, the others any-0..N, none mandatory; the eight child-node kinds share the
slot of the child sibling list, and the six other kinds have a slot each, distinct from
one another and from the child slot. -/
theorem structure_compile_binding_table (env : ext_env) (p_ext p : lysp_ext_instance)
    (w w1 : World)
    (h : Event.lys_compile_extension_instance p w1 ∈ (structure_compile env p_ext w).trace) :
    ∃ t, w1.c_ext.substmts = some t ∧ t.length = 14 ∧
      t.map (fun e => e.stmt) =
        [LY_STMT_MUST, LY_STMT_STATUS, LY_STMT_DESCRIPTION, LY_STMT_REFERENCE,
         LY_STMT_TYPEDEF, LY_STMT_GROUPING, LY_STMT_CONTAINER, LY_STMT_LEAF,
         LY_STMT_LEAF_LIST, LY_STMT_LIST, LY_STMT_CHOICE, LY_STMT_ANYDATA, LY_STMT_ANYXML,
         LY_STMT_USES] ∧
      (t.map (fun e => e.stmt)).Nodup ∧
      t.map (fun e => e.cardinality) =
        [LY_STMT_CARD_ANY, LY_STMT_CARD_OPT, LY_STMT_CARD_OPT, LY_STMT_CARD_OPT,
         LY_STMT_CARD_ANY, LY_STMT_CARD_ANY, LY_STMT_CARD_ANY, LY_STMT_CARD_ANY,
         LY_STMT_CARD_ANY, LY_STMT_CARD_ANY, LY_STMT_CARD_ANY, LY_STMT_CARD_ANY,
         LY_STMT_CARD_ANY, LY_STMT_CARD_ANY] ∧
      (∀ e ∈ t, e.cardinality ≠ LY_STMT_CARD_MAND) ∧
      (∀ e ∈ t, e.cardinality = LY_STMT_CARD_OPT ↔
        e.stmt ∈ [LY_STMT_STATUS, LY_STMT_DESCRIPTION, LY_STMT_REFERENCE]) ∧
      t.map (fun e => e.storage) =
        [some storage_slot.musts, some storage_slot.flags, some storage_slot.dsc,
         some storage_slot.ref, some storage_slot.typedefs, some storage_slot.groupings,
         some storage_slot.child, some storage_slot.child, some storage_slot.child,
         some storage_slot.child, some storage_slot.child, some storage_slot.child,
         some storage_slot.child, some storage_slot.child] ∧
      (∀ e ∈ t, e.storage = some storage_slot.child ↔
        e.stmt ∈ [LY_STMT_CONTAINER, LY_STMT_LEAF, LY_STMT_LEAF_LIST, LY_STMT_LIST,
          LY_STMT_CHOICE, LY_STMT_ANYDATA, LY_STMT_ANYXML, LY_STMT_USES]) ∧
      (∀ e1 ∈ t, ∀ e2 ∈ t, e1.storage = e2.storage → e1.stmt ≠ e2.stmt →
        e1.storage = some storage_slot.child) := by
  have hw := (structure_compile_engine_world env p_ext p w w1 h).2.2.2.2
  refine ⟨fill_substmts [], ?_, ?_⟩
  · rw [hw]
    rfl
  · decide

/-- Witness of C10: the instance "foo" at the top level reaches the engine. -/
theorem structure_compile_binding_table_witness :
    Event.lys_compile_extension_instance sx_structure
        (engine_world example_env world_top_level) ∈
      (structure_compile example_env sx_structure world_top_level).trace ∧
    ∃ t, (engine_world example_env world_top_level).c_ext.substmts = some t ∧
      t.length = 14 ∧
      t.map (fun e => e.stmt) =
        [LY_STMT_MUST, LY_STMT_STATUS, LY_STMT_DESCRIPTION, LY_STMT_REFERENCE,
         LY_STMT_TYPEDEF, LY_STMT_GROUPING, LY_STMT_CONTAINER, LY_STMT_LEAF,
         LY_STMT_LEAF_LIST, LY_STMT_LIST, LY_STMT_CHOICE, LY_STMT_ANYDATA, LY_STMT_ANYXML,
         LY_STMT_USES] ∧
      (t.map (fun e => e.stmt)).Nodup ∧
      t.map (fun e => e.cardinality) =
        [LY_STMT_CARD_ANY, LY_STMT_CARD_OPT, LY_STMT_CARD_OPT, LY_STMT_CARD_OPT,
         LY_STMT_CARD_ANY, LY_STMT_CARD_ANY, LY_STMT_CARD_ANY, LY_STMT_CARD_ANY,
         LY_STMT_CARD_ANY, LY_STMT_CARD_ANY, LY_STMT_CARD_ANY, LY_STMT_CARD_ANY,
         LY_STMT_CARD_ANY, LY_STMT_CARD_ANY] ∧
      (∀ e ∈ t, e.cardinality ≠ LY_STMT_CARD_MAND) ∧
      (∀ e ∈ t, e.cardinality = LY_STMT_CARD_OPT ↔
        e.stmt ∈ [LY_STMT_STATUS, LY_STMT_DESCRIPTION, LY_STMT_REFERENCE]) ∧
      t.map (fun e => e.storage) =
        [some storage_slot.musts, some storage_slot.flags, some storage_slot.dsc,
         some storage_slot.ref, some storage_slot.typedefs, some storage_slot.groupings,
         some storage_slot.child, some storage_slot.child, some storage_slot.child,
         some storage_slot.child, some storage_slot.child, some storage_slot.child,
         some storage_slot.child, some storage_slot.child] ∧
      (∀ e ∈ t, e.storage = some storage_slot.child ↔
        e.stmt ∈ [LY_STMT_CONTAINER, LY_STMT_LEAF, LY_STMT_LEAF_LIST, LY_STMT_LIST,
          LY_STMT_CHOICE, LY_STMT_ANYDATA, LY_STMT_ANYXML, LY_STMT_USES]) ∧
      (∀ e1 ∈ t, ∀ e2 ∈ t, e1.storage = e2.storage → e1.stmt ≠ e2.stmt →
        e1.storage = some storage_slot.child) :=
  ⟨by decide,
    structure_compile_binding_table example_env sx_structure sx_structure world_top_level
      (engine_world example_env world_top_level) (by decide)⟩

/-- Counterexample to C2 as stated: in a module whose extension list already holds
an instance "foo" of the definition, two further instances "foo" of that definition, legally
placed, with no data node named "foo" and with allocations and engine succeeding, are
both rejected with `LY_EVALID` as duplicates: no call succeeds. -/
theorem compile_both_rejects_both :
    (example_instance "foo" LY_STMT_MODULE).def_ =
      (example_instance "foo" LY_STMT_SUBMODULE).def_ ∧
    (example_instance "foo" LY_STMT_MODULE).argument =
      (example_instance "foo" LY_STMT_SUBMODULE).argument ∧
    legal_placement (example_instance "foo" LY_STMT_MODULE) ∧
    legal_placement (example_instance "foo" LY_STMT_SUBMODULE) ∧
    example_env.calloc_ok = true ∧ example_env.array_create_ok = true ∧
    (compile_both example_env sx_structure sx_structure example_cctx earlier_foo []
      (example_instance "foo" LY_STMT_MODULE)
      (example_instance "foo" LY_STMT_SUBMODULE)).1.ret = LY_EVALID ∧
    (compile_both example_env sx_structure sx_structure example_cctx earlier_foo []
      (example_instance "foo" LY_STMT_MODULE)
      (example_instance "foo" LY_STMT_SUBMODULE)).1.trace =
        [Event.lyplg_ext_log LY_LLERR LY_EVALID example_cctx.path
          (ext_msg.instantiated_multiple_times sx_structure.name)] ∧
    (compile_both example_env sx_structure sx_structure example_cctx earlier_foo []
      (example_instance "foo" LY_STMT_MODULE)
      (example_instance "foo" LY_STMT_SUBMODULE)).2.ret = LY_EVALID ∧
    (compile_both example_env sx_structure sx_structure example_cctx earlier_foo []
      (example_instance "foo" LY_STMT_MODULE)
      (example_instance "foo" LY_STMT_SUBMODULE)).2.trace =
        [Event.lyplg_ext_log LY_LLERR LY_EVALID example_cctx.path
          (ext_msg.instantiated_multiple_times sx_structure.name)] := by
  refine ⟨rfl, rfl, Or.inl rfl, Or.inr rfl, rfl, rfl, ?_, ?_, ?_, ?_⟩ <;> decide

/-- C2, amended: when no instance compiled before the two has their definition and
argument, two instances of one definition with identical argument strings, compiled one
after the other (placement legal, no data node named as the argument, allocations and
engine succeeding), give exactly one success and one duplicate failure: the instance
compiled first succeeds, being no duplicate of itself, and the second is rejected with
`LY_EVALID` as instantiated multiple times. This holds in either order of the two. -/
theorem compile_both_first_wins (env : ext_env) (p_a p_b : lysp_ext_instance)
    (cctx : lysc_ctx) (earlier : List lysc_ext_instance) (data : List lysc_node)
    (a b : lysc_ext_instance) (hdef : a.def_ = b.def_) (harg : a.argument = b.argument)
    (hla : legal_placement a) (hlb : legal_placement b)
    (hdata : ∀ node ∈ data, node.name ≠ a.argument)
    (hearlier : ∀ e ∈ earlier, ¬ (e.def_ = a.def_ ∧ e.argument = a.argument))
    (hc : env.calloc_ok = true) (ha : env.array_create_ok = true)
    (he : ∀ p w, (env.lys_compile_extension_instance p w).ret = LY_SUCCESS) :
    (compile_both env p_a p_b cctx earlier data a b).1.ret = LY_SUCCESS ∧
    (compile_both env p_a p_b cctx earlier data a b).2.ret = LY_EVALID ∧
    (compile_both env p_a p_b cctx earlier data a b).2.trace =
      [Event.lyplg_ext_log LY_LLERR LY_EVALID cctx.path
        (ext_msg.instantiated_multiple_times p_b.name)] ∧
    (compile_both env p_b p_a cctx earlier data b a).1.ret = LY_SUCCESS ∧
    (compile_both env p_b p_a cctx earlier data b a).2.ret = LY_EVALID ∧
    (compile_both env p_b p_a cctx earlier data b a).2.trace =
      [Event.lyplg_ext_log LY_LLERR LY_EVALID cctx.path
        (ext_msg.instantiated_multiple_times p_a.name)] := by
  have h1 := compile_both_in_order env p_a p_b cctx earlier data a b hdef harg hla hlb hdata
    hearlier hc ha he
  have h2 := compile_both_in_order env p_b p_a cctx earlier data b a hdef.symm harg.symm hlb
    hla (fun node hn => harg ▸ hdata node hn)
    (fun e hmem => hdef ▸ harg ▸ hearlier e hmem) hc ha he
  exact ⟨h1.1, h1.2.1, h1.2.2, h2.1, h2.2.1, h2.2.2⟩

/-- Witness of C2, amended: two instances "foo", one under the module and one under a
submodule of it, in a module that holds an instance "bar" and a data node "Foo". -/
theorem compile_both_first_wins_witness :
    (compile_both example_env sx_structure sx_structure example_cctx
      [example_instance "bar" LY_STMT_MODULE] [{ nodetype := 1, name := "Foo" }]
      (example_instance "foo" LY_STMT_MODULE)
      (example_instance "foo" LY_STMT_SUBMODULE)).1.ret = LY_SUCCESS ∧
    (compile_both example_env sx_structure sx_structure example_cctx
      [example_instance "bar" LY_STMT_MODULE] [{ nodetype := 1, name := "Foo" }]
      (example_instance "foo" LY_STMT_MODULE)
      (example_instance "foo" LY_STMT_SUBMODULE)).2.ret = LY_EVALID ∧
    (compile_both example_env sx_structure sx_structure example_cctx
      [example_instance "bar" LY_STMT_MODULE] [{ nodetype := 1, name := "Foo" }]
      (example_instance "foo" LY_STMT_MODULE)
      (example_instance "foo" LY_STMT_SUBMODULE)).2.trace =
      [Event.lyplg_ext_log LY_LLERR LY_EVALID example_cctx.path
        (ext_msg.instantiated_multiple_times sx_structure.name)] ∧
    (compile_both example_env sx_structure sx_structure example_cctx
      [example_instance "bar" LY_STMT_MODULE] [{ nodetype := 1, name := "Foo" }]
      (example_instance "foo" LY_STMT_SUBMODULE)
      (example_instance "foo" LY_STMT_MODULE)).1.ret = LY_SUCCESS ∧
    (compile_both example_env sx_structure sx_structure example_cctx
      [example_instance "bar" LY_STMT_MODULE] [{ nodetype := 1, name := "Foo" }]
      (example_instance "foo" LY_STMT_SUBMODULE)
      (example_instance "foo" LY_STMT_MODULE)).2.ret = LY_EVALID ∧
    (compile_both example_env sx_structure sx_structure example_cctx
      [example_instance "bar" LY_STMT_MODULE] [{ nodetype := 1, name := "Foo" }]
      (example_instance "foo" LY_STMT_SUBMODULE)
      (example_instance "foo" LY_STMT_MODULE)).2.trace =
      [Event.lyplg_ext_log LY_LLERR LY_EVALID example_cctx.path
        (ext_msg.instantiated_multiple_times sx_structure.name)] :=
  compile_both_first_wins example_env sx_structure sx_structure example_cctx
    [example_instance "bar" LY_STMT_MODULE] [{ nodetype := 1, name := "Foo" }]
    (example_instance "foo" LY_STMT_MODULE) (example_instance "foo" LY_STMT_SUBMODULE)
    rfl rfl (Or.inl rfl) (Or.inr rfl) (by decide) (by decide) rfl rfl (fun _ _ => rfl)

/-- C7: in a data tree where the node `n` has a finite parent chain `n :: ancestors` and
its top-level ancestor stands in a well-formed sibling list `first :: rest` (the first
sibling's `prev` is the last sibling, whose `next` is `NULL`), with caller options
without the with-siblings flag: `lyd_print_all` terminates, for every fuel above the
lengths of the two lists, and hands the selected serializer exactly one root, the first
sibling `first`, with the flag added to the options; `lyd_print_tree` hands it exactly
`n` with the options unchanged. -/
theorem lyd_print_all_first_sibling (env : print_env) (mem : List lyd_node) (o : ly_out)
    (n : Nat) (ancestors : List Nat) (first : Nat) (rest : List Nat) (i : Nat)
    (format : LYD_FORMAT) (options fuel : Nat)
    (hflag : options &&& env.LYD_PRINT_WITHSIBLINGS = 0)
    (hchain : parent_chain mem (n :: ancestors) = true)
    (hsibs : sibling_list mem first rest = true)
    (htop : (first :: rest)[i]? = some (last_of n ancestors))
    (hup : ancestors.length < fuel) (hleft : rest.length < fuel) :
    lyd_print_all env mem fuel (some o) (some n) format options =
      some (check_ret (lyd_print_ env { o with func_printed := 0 } (some first) format
        (options ||| env.LYD_PRINT_WITHSIBLINGS))) ∧
    (options ||| env.LYD_PRINT_WITHSIBLINGS) &&& env.LYD_PRINT_WITHSIBLINGS =
      env.LYD_PRINT_WITHSIBLINGS ∧
    lyd_print_tree env (some o) (some n) format options =
      check_ret (lyd_print_ env { o with func_printed := 0 } (some n) format options) ∧
    (format = LYD_XML →
      (lyd_print_all env mem fuel (some o) (some n) format options).map
          (fun r => r.trace) =
        some [print_event.xml_print_data { o with func_printed := 0 } (some first)
          (options ||| env.LYD_PRINT_WITHSIBLINGS)] ∧
      (lyd_print_tree env (some o) (some n) format options).trace =
        [print_event.xml_print_data { o with func_printed := 0 } (some n) options]) ∧
    (format = LYD_LYB →
      (lyd_print_all env mem fuel (some o) (some n) format options).map
          (fun r => r.trace) =
        some [print_event.lyb_print_data { o with func_printed := 0 } (some first)
          (options ||| env.LYD_PRINT_WITHSIBLINGS)] ∧
      (lyd_print_tree env (some o) (some n) format options).trace =
        [print_event.lyb_print_data { o with func_printed := 0 } (some n) options]) := by
  have hp := parent_loop_chain mem ancestors n fuel hchain hup
  have hi : i < fuel := by
    have hlen : i < (first :: rest).length := by
      by_contra hge
      rw [List.getElem?_eq_none (by omega)] at htop
      exact absurd htop (by simp)
    simp only [List.length_cons] at hlen
    omega
  have hq := prev_loop_first mem first rest hsibs i _ fuel htop hi
  have hall : lyd_print_all env mem fuel (some o) (some n) format options =
      some (check_ret (lyd_print_ env { o with func_printed := 0 } (some first) format
        (options ||| env.LYD_PRINT_WITHSIBLINGS))) := by
    simp only [lyd_print_all, hflag, ne_eq, not_true_eq_false, if_false, hp, hq]
  have htree : lyd_print_tree env (some o) (some n) format options =
      check_ret (lyd_print_ env { o with func_printed := 0 } (some n) format options) := by
    simp only [lyd_print_tree, hflag, ne_eq, not_true_eq_false, if_false]
  refine ⟨hall, lor_land_self _ _, htree, ?_, ?_⟩
  · intro hfmt
    subst hfmt
    rw [hall, htree]
    constructor
    · simp only [Option.map_some', check_ret, lyd_print_]
      split_ifs <;> rfl
    · simp only [check_ret, lyd_print_]
      split_ifs <;> rfl
  · intro hfmt
    subst hfmt
    rw [hall, htree]
    constructor
    · simp only [Option.map_some', check_ret, lyd_print_]
      split_ifs <;> rfl
    · simp only [check_ret, lyd_print_]
      split_ifs <;> rfl

/-- Witness of C7: the middle node 1 of three top-level siblings, printed in XML with no
option set: the serializer is handed node 0 with the flag, or node 1 without it. -/
theorem lyd_print_all_first_sibling_witness :
    lyd_print_all example_print_env three_siblings 3 (some example_out) (some 1) LYD_XML 0 =
      some (check_ret (lyd_print_ example_print_env { example_out with func_printed := 0 }
        (some 0) LYD_XML (0 ||| example_print_env.LYD_PRINT_WITHSIBLINGS))) ∧
    (0 ||| example_print_env.LYD_PRINT_WITHSIBLINGS) &&&
        example_print_env.LYD_PRINT_WITHSIBLINGS =
      example_print_env.LYD_PRINT_WITHSIBLINGS ∧
    lyd_print_tree example_print_env (some example_out) (some 1) LYD_XML 0 =
      check_ret (lyd_print_ example_print_env { example_out with func_printed := 0 }
        (some 1) LYD_XML 0) ∧
    (LYD_XML = LYD_XML →
      (lyd_print_all example_print_env three_siblings 3 (some example_out) (some 1)
          LYD_XML 0).map (fun r => r.trace) =
        some [print_event.xml_print_data { example_out with func_printed := 0 } (some 0)
          (0 ||| example_print_env.LYD_PRINT_WITHSIBLINGS)] ∧
      (lyd_print_tree example_print_env (some example_out) (some 1) LYD_XML 0).trace =
        [print_event.xml_print_data { example_out with func_printed := 0 } (some 1) 0]) ∧
    (LYD_XML = LYD_LYB →
      (lyd_print_all example_print_env three_siblings 3 (some example_out) (some 1)
          LYD_XML 0).map (fun r => r.trace) =
        some [print_event.lyb_print_data { example_out with func_printed := 0 } (some 0)
          (0 ||| example_print_env.LYD_PRINT_WITHSIBLINGS)] ∧
      (lyd_print_tree example_print_env (some example_out) (some 1) LYD_XML 0).trace =
        [print_event.lyb_print_data { example_out with func_printed := 0 } (some 1) 0]) :=
  lyd_print_all_first_sibling example_print_env three_siblings example_out 1 [] 0 [1, 2] 1
    LYD_XML 0 3 (by decide) (by decide) (by decide) (by decide) (by decide) (by decide)

/-- C8: for every non-null sink, root and format, `lyd_print_tree` called with options
that contain the with-siblings flag returns `LY_EINVAL`, calls no serializer (its one
outside call logs the argument) and leaves the sink, with its counter of printed bytes,
as it was; the same holds for `lyd_print_all`, before any walk over the tree. -/
theorem lyd_print_rejects_withsiblings (env : print_env) (mem : List lyd_node) (fuel : Nat)
    (o : ly_out) (root : Option Nat) (format : LYD_FORMAT) (options : Nat)
    (h : options &&& env.LYD_PRINT_WITHSIBLINGS ≠ 0) :
    lyd_print_tree env (some o) root format options =
      { ret := LY_EINVAL, out := some o,
        trace := [print_event.LOGARG "!(options & LYD_PRINT_WITHSIBLINGS)"] } ∧
    lyd_print_all env mem fuel (some o) root format options =
      some { ret := LY_EINVAL, out := some o,
             trace := [print_event.LOGARG "!(options & LYD_PRINT_WITHSIBLINGS)"] } ∧
    (∀ r ∈ [some (lyd_print_tree env (some o) root format options),
        lyd_print_all env mem fuel (some o) root format options],
      ∃ res, r = some res ∧ res.ret = LY_EINVAL ∧
        (∀ out1 root1 options1,
          print_event.xml_print_data out1 root1 options1 ∉ res.trace ∧
          print_event.lyb_print_data out1 root1 options1 ∉ res.trace) ∧
        res.out.map (fun s => s.func_printed) = some o.func_printed) := by
  have htree : lyd_print_tree env (some o) root format options =
      { ret := LY_EINVAL, out := some o,
        trace := [print_event.LOGARG "!(options & LYD_PRINT_WITHSIBLINGS)"] } := by
    simp only [lyd_print_tree, h, ne_eq, not_false_eq_true, if_true]
  have hall : lyd_print_all env mem fuel (some o) root format options =
      some { ret := LY_EINVAL, out := some o,
             trace := [print_event.LOGARG "!(options & LYD_PRINT_WITHSIBLINGS)"] } := by
    simp only [lyd_print_all, h, ne_eq, not_false_eq_true, if_true]
  refine ⟨htree, hall, ?_⟩
  intro r hr
  rw [htree, hall] at hr
  simp only [List.mem_cons, List.mem_singleton, List.not_mem_nil, or_false, or_self] at hr
  subst hr
  exact ⟨_, rfl, rfl, fun _ _ _ => ⟨by simp, by simp⟩, rfl⟩

/-- Witness of C8: the flag of value 1 in the options 3, on a sink that has counted 42
bytes. -/
theorem lyd_print_rejects_withsiblings_witness :
    (3 &&& example_print_env.LYD_PRINT_WITHSIBLINGS ≠ 0) ∧
    lyd_print_tree example_print_env (some example_out) (some 1) LYD_XML 3 =
      { ret := LY_EINVAL, out := some example_out,
        trace := [print_event.LOGARG "!(options & LYD_PRINT_WITHSIBLINGS)"] } ∧
    lyd_print_all example_print_env three_siblings 0 (some example_out) (some 1) LYD_XML 3 =
      some { ret := LY_EINVAL, out := some example_out,
             trace := [print_event.LOGARG "!(options & LYD_PRINT_WITHSIBLINGS)"] } ∧
    (∀ r ∈ [some (lyd_print_tree example_print_env (some example_out) (some 1) LYD_XML 3),
        lyd_print_all example_print_env three_siblings 0 (some example_out) (some 1)
          LYD_XML 3],
      ∃ res, r = some res ∧ res.ret = LY_EINVAL ∧
        (∀ out1 root1 options1,
          print_event.xml_print_data out1 root1 options1 ∉ res.trace ∧
          print_event.lyb_print_data out1 root1 options1 ∉ res.trace) ∧
        res.out.map (fun s => s.func_printed) = some example_out.func_printed) :=
  ⟨by decide,
    lyd_print_rejects_withsiblings example_print_env three_siblings 0 example_out (some 1)
      LYD_XML 3 (by decide)⟩

/-- C9: the format selects one serializer. For options that pass the argument check and
a sink that exists (for `lyd_print_mem`, created with success): with the schema format
the call returns `LY_EINVAL` and invokes neither serializer; with the XML format it
invokes the XML serializer once and no other, with the LYB format the binary serializer
once and no other, and returns that serializer's result code unchanged. This holds for
the dispatcher `lyd_print_`, for `lyd_print_tree` and for `lyd_print_mem`. -/
theorem lyd_print_selects_serializer (env : print_env) (o : ly_out) (root : Option Nat)
    (options : Nat) (hflag : options &&& env.LYD_PRINT_WITHSIBLINGS = 0)
    (hnew : env.ly_out_new_memory.1 = LY_SUCCESS) :
    (lyd_print_ env o root LYD_SCHEMA options =
        { ret := LY_EINVAL, out := some o,
          trace := [print_event.LOGERR LY_EINVAL "Invalid output format."] } ∧
      lyd_print_ env o root LYD_XML options =
        { ret := (env.xml_print_data o root options).1,
          out := some (env.xml_print_data o root options).2,
          trace := [print_event.xml_print_data o root options] } ∧
      lyd_print_ env o root LYD_LYB options =
        { ret := (env.lyb_print_data o root options).1,
          out := some (env.lyb_print_data o root options).2,
          trace := [print_event.lyb_print_data o root options] }) ∧
    ((lyd_print_tree env (some o) root LYD_SCHEMA options).ret = LY_EINVAL ∧
      (lyd_print_tree env (some o) root LYD_SCHEMA options).trace =
        [print_event.LOGERR LY_EINVAL "Invalid output format."] ∧
      (lyd_print_tree env (some o) root LYD_XML options).ret =
        (env.xml_print_data { o with func_printed := 0 } root options).1 ∧
      (lyd_print_tree env (some o) root LYD_XML options).trace =
        [print_event.xml_print_data { o with func_printed := 0 } root options] ∧
      (lyd_print_tree env (some o) root LYD_LYB options).ret =
        (env.lyb_print_data { o with func_printed := 0 } root options).1 ∧
      (lyd_print_tree env (some o) root LYD_LYB options).trace =
        [print_event.lyb_print_data { o with func_printed := 0 } root options]) ∧
    ((lyd_print_mem env false root LYD_SCHEMA options).ret = LY_EINVAL ∧
      (lyd_print_mem env false root LYD_SCHEMA options).trace =
        [print_event.LOGERR LY_EINVAL "Invalid output format.",
          print_event.ly_out_free env.ly_out_new_memory.2] ∧
      (lyd_print_mem env false root LYD_XML options).ret =
        (env.xml_print_data env.ly_out_new_memory.2 root options).1 ∧
      (lyd_print_mem env false root LYD_XML options).trace =
        [print_event.xml_print_data env.ly_out_new_memory.2 root options,
          print_event.ly_out_free
            (env.xml_print_data env.ly_out_new_memory.2 root options).2] ∧
      (lyd_print_mem env false root LYD_LYB options).ret =
        (env.lyb_print_data env.ly_out_new_memory.2 root options).1 ∧
      (lyd_print_mem env false root LYD_LYB options).trace =
        [print_event.lyb_print_data env.ly_out_new_memory.2 root options,
          print_event.ly_out_free
            (env.lyb_print_data env.ly_out_new_memory.2 root options).2]) := by
  refine ⟨⟨rfl, rfl, rfl⟩, ?_, ?_⟩
  · simp only [lyd_print_tree, hflag, ne_eq, not_true_eq_false, if_false, check_ret,
      lyd_print_]
    refine ⟨?_, ?_, ?_, ?_, ?_, ?_⟩ <;> split_ifs <;> simp_all
  · simp [lyd_print_mem, hnew, lyd_print_]

/-- Witness of C9: the serializers of `example_print_env`, of which the XML one succeeds
and the binary one fails with `LY_ESYS`. -/
theorem lyd_print_selects_serializer_witness :
    0 &&& example_print_env.LYD_PRINT_WITHSIBLINGS = 0 ∧
    example_print_env.ly_out_new_memory.1 = LY_SUCCESS ∧
    (lyd_print_tree example_print_env (some example_out) (some 1) LYD_XML 0).ret =
      LY_SUCCESS ∧
    (lyd_print_tree example_print_env (some example_out) (some 1) LYD_LYB 0).ret =
      LY_ESYS ∧
    (lyd_print_mem example_print_env false (some 1) LYD_LYB 0).ret = LY_ESYS ∧
    (lyd_print_mem example_print_env false (some 1) LYD_SCHEMA 0).ret = LY_EINVAL :=
  have h := lyd_print_selects_serializer example_print_env example_out (some 1) 0
    (by decide) rfl
  ⟨by decide, rfl, h.2.1.2.2.1, h.2.1.2.2.2.2.1, h.2.2.2.2.2.2.1, h.2.2.1⟩

end Libyang
